import Mathlib

/-!
Verification of the DJ mix engine (`dj_mix.py`, `many_transitions.py`,
`loop_mix.py`) against its natural-language specification.

The Python code is shallowly embedded: audio buffers become `List ℚ`
(one channel; both channels are processed identically), wall-clock
seconds and BPM values become `ℚ`, sample indices become `ℤ`/`ℕ`, and
Python's `round`, `int`, `%` on nonnegative floats are modelled exactly
on the rationals.
-/

namespace DJMix

/-- Python 3 `round` to the nearest integer, ties to even (banker's rounding),
modelled on the rationals. -/
def pyround (q : ℚ) : ℤ :=
  if Int.fract q < 1/2 then ⌊q⌋
  else if 1/2 < Int.fract q then ⌊q⌋ + 1
  else if 2 ∣ ⌊q⌋ then ⌊q⌋ else ⌊q⌋ + 1

/-- Python `t % s` for a positive modulus `s` (the remainder takes the sign of
the divisor): `t - s * ⌊t / s⌋`. -/
def pymod (t s : ℚ) : ℚ := t - s * ⌊t / s⌋

/-- Python `int(q)`: truncation toward zero. -/
def pyint (q : ℚ) : ℤ := if 0 ≤ q then ⌊q⌋ else -⌊-q⌋

theorem pyround_intCast (m : ℤ) : pyround (m : ℚ) = m := by
  simp [pyround, Int.fract_intCast]

theorem pyround_add_int (q : ℚ) (m : ℤ) (h : Int.fract q ≠ 1/2) :
    pyround (q + m) = pyround q + m := by
  unfold pyround
  rw [Int.fract_add_int, Int.floor_add_int]
  by_cases hlt : Int.fract q < 1/2
  · rw [if_pos hlt, if_pos hlt]
  · have hgt : 1/2 < Int.fract q := lt_of_le_of_ne (not_lt.mp hlt) (Ne.symm h)
    rw [if_neg hlt, if_neg hlt, if_pos hgt, if_pos hgt]
    ring

-- ---------------------------------------------------------------------------
-- Camelot model (`many_transitions.py`, `keys_compatible`, lines 125–147)
-- ---------------------------------------------------------------------------

/-- Camelot ring letter: `A` = minor ring, `B` = major ring. -/
inductive Letter
  | A
  | B
  deriving DecidableEq, Fintype

/-- `keys_compatible(c1, c2)` from `many_transitions.py`: the sequential
if-chain over (same number+letter), (same letter, |n1−n2| ∈ 1 or 11),
(same number, different letter). Numbers are Python ints, modelled as `ℤ`. -/
def keys_compatible (c1 c2 : ℤ × Letter) : Bool :=
  if c1.1 = c2.1 ∧ c1.2 = c2.2 then true
  else if c1.2 = c2.2 ∧ ((c1.1 - c2.1).natAbs = 1 ∨ (c1.1 - c2.1).natAbs = 11) then true
  else if c1.1 = c2.1 ∧ c1.2 ≠ c2.2 then true
  else false

/-- Claim C8: over all 24×24 Camelot pairs `(n, l)` with `n ∈ 1..12`,
`keys_compatible` returns `true` exactly for: identical keys; same letter and
adjacent numbers on the 12-ring (including the explicit 12↔1 wrap); same
number with different letters — and `false` for every other pair. -/
theorem keys_compatible_characterization :
    ∀ (a b : Fin 12) (l1 l2 : Letter),
      keys_compatible ((a : ℤ) + 1, l1) ((b : ℤ) + 1, l2) = true ↔
        (((a : ℤ) + 1 = (b : ℤ) + 1 ∧ l1 = l2) ∨
         (l1 = l2 ∧ ((a : ℤ) + 1 = (b : ℤ) + 2 ∨ (b : ℤ) + 1 = (a : ℤ) + 2 ∨
            ((a : ℤ) + 1 = 1 ∧ (b : ℤ) + 1 = 12) ∨ ((a : ℤ) + 1 = 12 ∧ (b : ℤ) + 1 = 1))) ∨
         ((a : ℤ) + 1 = (b : ℤ) + 1 ∧ l1 ≠ l2)) := by
  decide

-- ---------------------------------------------------------------------------
-- Strategy selection (`dj_mix.py` lines 111–135, `many_transitions.py` 403–405)
-- ---------------------------------------------------------------------------

/-- The three mix strategies of the orchestrator `dj_mix.py`. -/
inductive Mode
  | loop
  | tight
  | loose
  deriving DecidableEq

/-- `BPM_TIGHT_THRESHOLD = 5` (`many_transitions.py` line 50). -/
def BPM_TIGHT_THRESHOLD : ℚ := 5

/-- Modelled from the spec: `BPM_LOOSE_THRESHOLD` is imported by `dj_mix.py`
(line 32) from `many_transitions`, but no file of the repository defines it;
the spec fixes `bpm_loose = bpm_diff ≤ 15`, so the value 15 is used here. -/
def BPM_LOOSE_THRESHOLD : ℚ := 15

/-- Mode selection from `dj_mix.py` lines 111–135: `loop` if
`bpm_diff ≤ 10 ∧ key_ok`, else `tight` if
`bpm_diff ≤ BPM_TIGHT_THRESHOLD ∨ (key_ok ∧ bpm_diff ≤ BPM_LOOSE_THRESHOLD)`,
else `loose`. -/
def dj_mix_mode (bpm1 bpm2 : ℚ) (key1 key2 : ℤ × Letter) : Mode :=
  let bpm_diff := |bpm1 - bpm2|
  let key_ok := keys_compatible key1 key2
  if bpm_diff ≤ 10 ∧ key_ok = true then Mode.loop
  else if bpm_diff ≤ BPM_TIGHT_THRESHOLD ∨ (key_ok = true ∧ bpm_diff ≤ BPM_LOOSE_THRESHOLD) then
    Mode.tight
  else Mode.loose

/-- The internal tight/loose decision of `make_transition`
(`many_transitions.py` lines 403–405): `tight = bpm_ok and key_ok` with
`bpm_ok = |bpm1 - bpm2| ≤ BPM_TIGHT_THRESHOLD`. The builder dispatch at lines
560–565 builds the tight (or tight-fallback) transition iff this is `true`,
and the loose transition iff it is `false`. -/
def make_transition_tight (bpm1 bpm2 : ℚ) (key1 key2 : ℤ × Letter) : Bool :=
  decide (|bpm1 - bpm2| ≤ BPM_TIGHT_THRESHOLD) && keys_compatible key1 key2

/-- Claim C1 (code bug): on scenario S2 (`bpm1 = 128`, `bpm2 = 125`,
`camelot1 = (8, B)`, `camelot2 = (3, A)`; `bpm_diff = 3 ≤ 5`, keys
incompatible) the orchestrator selects mode `tight` — but the builder it
delegates to, `make_transition`, recomputes `tight = bpm_ok ∧ key_ok = false`
and therefore assembles the 2-phrase loose transition, contradicting the
claim that the produced mix is the tight one. -/
theorem dj_mix_S2_label_ne_built_transition :
    dj_mix_mode 128 125 (8, Letter.B) (3, Letter.A) = Mode.tight ∧
    make_transition_tight 128 125 (8, Letter.B) (3, Letter.A) = false := by
  constructor
  · unfold dj_mix_mode
    norm_num [keys_compatible, BPM_TIGHT_THRESHOLD, BPM_LOOSE_THRESHOLD]
  · unfold make_transition_tight
    norm_num [keys_compatible, BPM_TIGHT_THRESHOLD]

-- ---------------------------------------------------------------------------
-- Module-level names: the import in `dj_mix.py` lines 30–36
-- ---------------------------------------------------------------------------

/-- Every module-level name defined in `many_transitions.py` (imports,
constants, functions), in source order. -/
def many_transitions_module_names : List String :=
  ["math", "os", "subprocess", "sys", "es", "librosa", "np", "sf",
   "get_bpm", "find_chorus", "find_verse",
   "BPM_TIGHT_THRESHOLD",
   "get_key", "keys_compatible",
   "make_transition"]

/-- The private module-level names of `many_transitions.py` (leading
underscore stripped, since Lean identifiers may not begin with one). -/
def many_transitions_private_names : List String :=
  ["here", "ENHARMONICS", "CAMELOT", "ensure_stereo", "snap_to_phrase",
   "sec_to_samp", "split_stems", "stretch_stem", "resample_stems", "fmt",
   "build_tight_transition", "build_tight_fallback", "build_loose_transition"]

/-- The names `dj_mix.py` lines 30–36 import from `many_transitions`. -/
def dj_mix_imports_from_many_transitions : List String :=
  ["BPM_TIGHT_THRESHOLD", "BPM_LOOSE_THRESHOLD", "get_key",
   "keys_compatible", "make_transition"]

/-- Claim C2 (code bug): `dj_mix.py` imports `BPM_LOOSE_THRESHOLD` from
`many_transitions`, but `many_transitions.py` defines no module-level name
`BPM_LOOSE_THRESHOLD` (public or private); every run of the orchestrator
therefore dies with `ImportError` before any strategy is evaluated. -/
theorem dj_mix_imports_undefined_loose_threshold :
    "BPM_LOOSE_THRESHOLD" ∈ dj_mix_imports_from_many_transitions ∧
    "BPM_LOOSE_THRESHOLD" ∉ many_transitions_module_names ∧
    "BPM_LOOSE_THRESHOLD" ∉ many_transitions_private_names := by
  decide

-- ---------------------------------------------------------------------------
-- Tempo pipeline (`many_transitions.py` lines 501–510, `loop_mix.py` 507–517)
-- ---------------------------------------------------------------------------

/-- The stretch rate both builders compute: `bpm1 / bpm2` when `bpm2 < bpm1`,
else `1.0` (Song 1 is never stretched; Song 2 is never slowed down). -/
def stretch_rate (bpm1 bpm2 : ℚ) : ℚ :=
  if bpm2 < bpm1 then bpm1 / bpm2 else 1

/-- Track A (Song 1) is loaded and used unstretched, so its tempo after the
pipeline is its original tempo. -/
def track1_bpm_after (bpm1 _bpm2 : ℚ) : ℚ := bpm1

/-- Track B's stems are all stretched by `stretch_rate`, multiplying its
tempo by that rate. -/
def track2_bpm_after (bpm1 bpm2 : ℚ) : ℚ := bpm2 * stretch_rate bpm1 bpm2

/-- Claim C3 counterexample: with `bpm1 = 120 < bpm2 = 130` the slower track
is track A, yet the code's `stretch_rate` is `1` and track A stays at
120 BPM ≠ `max 120 130 = 130`; the two tracks are not brought to a common
`target_bpm = max(bpm_a, bpm_b)` as the claim states. -/
theorem slower_track_not_stretched_at_120_130 :
    stretch_rate 120 130 = 1 ∧
    track1_bpm_after 120 130 ≠ max (120 : ℚ) 130 := by
  constructor
  · norm_num [stretch_rate]
  · rw [max_eq_right (by norm_num : (120 : ℚ) ≤ 130)]
    norm_num [track1_bpm_after]

/-- Claim C3 as amended: only Song 2 is ever stretched. When Song 2 is the
slower track it is stretched by `bpm1 / bpm2 ≥ 1` and reaches Song 1's tempo;
when Song 2 is not slower the rate is `1` and neither track is stretched
(so the tempos stay apart when Song 1 is the slower track). The rate is
never below `1` (never slowed). -/
theorem stretch_applies_to_song2_only (bpm1 bpm2 : ℚ)
    (h1 : 0 < bpm1) (h2 : 0 < bpm2) :
    1 ≤ stretch_rate bpm1 bpm2 ∧
    track1_bpm_after bpm1 bpm2 = bpm1 ∧
    (bpm2 < bpm1 → track2_bpm_after bpm1 bpm2 = bpm1) ∧
    (bpm1 ≤ bpm2 → stretch_rate bpm1 bpm2 = 1 ∧ track2_bpm_after bpm1 bpm2 = bpm2) := by
  refine ⟨?_, rfl, ?_, ?_⟩
  · unfold stretch_rate
    split_ifs with hlt
    · exact (one_le_div h2).mpr (le_of_lt hlt)
    · exact le_refl 1
  · intro hlt
    unfold track2_bpm_after stretch_rate
    rw [if_pos hlt, mul_comm]
    exact div_mul_cancel₀ bpm1 (ne_of_gt h2)
  · intro hle
    have hnot : ¬ bpm2 < bpm1 := not_lt.mpr hle
    unfold track2_bpm_after stretch_rate
    rw [if_neg hnot]
    exact ⟨rfl, mul_one bpm2⟩

/-- Witness for `stretch_applies_to_song2_only` at the S2 tempos
`bpm1 = 128`, `bpm2 = 125`. -/
theorem stretch_applies_to_song2_only_witness :
    1 ≤ stretch_rate 128 125 ∧
    track1_bpm_after 128 125 = 128 ∧
    ((125 : ℚ) < 128 → track2_bpm_after 128 125 = 128) ∧
    ((128 : ℚ) ≤ 125 → stretch_rate 128 125 = 1 ∧ track2_bpm_after 128 125 = 125) :=
  stretch_applies_to_song2_only 128 125 (by norm_num) (by norm_num)

-- ---------------------------------------------------------------------------
-- Section-prerequisite validation
-- (`many_transitions.py` lines 421–436, `loop_mix.py` lines 436–457)
-- ---------------------------------------------------------------------------

/-- The prerequisite checks of `make_transition` (lines 421–436), in source
order, over the detected section lists (pairs of start/end seconds). `tight`
is the already-computed strategy flag. Returns the first `ValueError`
message raised, or `ok` when the builder proceeds. -/
def make_transition_validate (chorus1_ts chorus2_ts verse1_ts verse2_ts : List (ℚ × ℚ))
    (tight : Bool) : Except String Unit :=
  if chorus1_ts.isEmpty then Except.error "Song 1: no chorus detected."
  else if chorus2_ts.isEmpty then Except.error "Song 2: no chorus detected."
  else if verse1_ts.isEmpty then
    Except.error "Song 1: no verse detected (need at least Verse 1)."
  else if tight = false ∧ verse1_ts.length < 2 then
    Except.error "Song 1: loose transition needs at least 2 verse instances."
  else if verse2_ts.length < 2 then
    Except.error "Song 2: need at least 2 verse instances to cap Song 2 content."
  else Except.ok ()

/-- The prerequisite checks of `build_loop_mix` (lines 436–457), in source
order: chorus in Song 1, verse in Song 1, chorus in Song 2, at least two
verses in Song 2, and a Song 2 verse starting after Song 2's Chorus 1 end. -/
def build_loop_mix_validate (chorus1_ts verse1_ts chorus2_ts verse2_ts : List (ℚ × ℚ)) :
    Except String Unit :=
  if chorus1_ts.isEmpty then Except.error "Song 1: no chorus detected."
  else if verse1_ts.isEmpty then Except.error "Song 1: no verse detected."
  else if chorus2_ts.isEmpty then Except.error "Song 2: no chorus detected."
  else if verse2_ts.length < 2 then
    Except.error "Song 2: need at least 2 verse instances to cap Song 2 content."
  else
    match chorus2_ts.head? with
    | none => Except.error "Song 2: no chorus detected."
    | some c1 =>
      match verse2_ts.find? (fun ts => decide (c1.2 < ts.1)) with
      | none => Except.error "Song 2: no verse instance found after Chorus 1 end. Cannot build loop mix."
      | some _ => Except.ok ()

/-- Claim C4 counterexample: with one chorus and one verse per track
(Song 2's single verse in scenario S6), the loop builder's validation fails —
but so does the tight builder's: `make_transition` also raises
`ValueError` because it unconditionally requires at least two Song 2 verse
instances (lines 432–436), so the tight build does not complete. -/
theorem tight_builder_also_rejects_single_verse2 :
    (build_loop_mix_validate [((10 : ℚ), 20)] [((0 : ℚ), 5)] [((8 : ℚ), 16)]
        [((2 : ℚ), 4)]).isOk = false ∧
    (make_transition_validate [((10 : ℚ), 20)] [((8 : ℚ), 16)] [((0 : ℚ), 5)]
        [((2 : ℚ), 4)] true).isOk = false := by
  decide

/-- Claim C4 as amended: whenever track B has fewer than two detected verse
instances, both builders reject the inputs — `build_loop_mix` and
`make_transition` (for any strategy flag) each raise `ValueError` before any
audio is assembled; neither returns a mix path. -/
theorem both_builders_require_two_verses_in_song2
    (chorus1_ts chorus2_ts verse1_ts verse2_ts : List (ℚ × ℚ)) (tight : Bool)
    (h : verse2_ts.length < 2) :
    (make_transition_validate chorus1_ts chorus2_ts verse1_ts verse2_ts tight).isOk = false ∧
    (build_loop_mix_validate chorus1_ts verse1_ts chorus2_ts verse2_ts).isOk = false := by
  constructor
  · unfold make_transition_validate
    split_ifs <;> simp_all [Except.isOk, Except.toBool]
  · unfold build_loop_mix_validate
    split_ifs <;> simp_all [Except.isOk, Except.toBool]

/-- Witness for `both_builders_require_two_verses_in_song2` on the concrete
S6-style inputs. -/
theorem both_builders_require_two_verses_in_song2_witness :
    (make_transition_validate [((10 : ℚ), 20)] [((8 : ℚ), 16)] [((0 : ℚ), 5)]
        [((2 : ℚ), 4)] false).isOk = false ∧
    (build_loop_mix_validate [((10 : ℚ), 20)] [((0 : ℚ), 5)] [((8 : ℚ), 16)]
        [((2 : ℚ), 4)]).isOk = false :=
  both_builders_require_two_verses_in_song2 [((10 : ℚ), 20)] [((8 : ℚ), 16)]
    [((0 : ℚ), 5)] [((2 : ℚ), 4)] false (by decide)

-- ---------------------------------------------------------------------------
-- Microtiming metric (`loop_mix.py`, `score_vocal_fit`, lines 253–275)
-- ---------------------------------------------------------------------------

/-- The eighth-note subdivision grid spacing: `subdiv = (60 / bpm) / 2`
(`loop_mix.py` lines 260–261). -/
def subdiv_of (bpm : ℚ) : ℚ := 60 / bpm / 2

/-- The per-onset offset the code computes (`loop_mix.py` line 266):
`t % subdiv - subdiv / 2`. -/
def microtiming_offset (t s : ℚ) : ℚ := pymod t s - s / 2

/-- The offset the claim describes: the signed distance from `t` to the
nearest grid point `k·s` (zero for an onset exactly on the grid). -/
def nearest_grid_offset (t s : ℚ) : ℚ :=
  if pymod t s ≤ s / 2 then pymod t s else pymod t s - s

/-- Claim C5 (code bug): at `bpm = 120` (so `subdiv = 1/4` s) an onset at
`t = 0`, exactly on the grid, gets code offset
`0 % subdiv - subdiv/2 = -1/8` — the maximal deviation — while its distance
to the nearest grid point is `0`. The code's offsets are the claimed ones
shifted by `-subdiv/2`, so perfectly on-grid vocals are scored as maximally
off-grid. -/
theorem ongrid_onset_gets_nonzero_offset :
    microtiming_offset 0 (subdiv_of 120) = -(1/8) ∧
    nearest_grid_offset 0 (subdiv_of 120) = 0 ∧
    microtiming_offset 0 (subdiv_of 120) ≠ nearest_grid_offset 0 (subdiv_of 120) := by
  refine ⟨?_, ?_, ?_⟩ <;> norm_num [microtiming_offset, nearest_grid_offset, pymod, subdiv_of]

-- ---------------------------------------------------------------------------
-- Loop tiler (`loop_mix.py`, `_loop_to_duration`, lines 326–356)
-- ---------------------------------------------------------------------------

/-- `_XFADE_SAMP = 512` (`loop_mix.py` line 61). -/
def XFADE_SAMP : ℕ := 512

/-- `np.linspace(1.0, 0.0, 512)[i] = 1 - i / 511`: the descending ramp. -/
def rampOut (i : ℕ) : ℚ := 1 - (i : ℚ) / ((XFADE_SAMP : ℚ) - 1)

/-- `np.linspace(0.0, 1.0, 512)[i] = i / 511`: the ascending ramp. -/
def rampIn (i : ℕ) : ℚ := (i : ℚ) / ((XFADE_SAMP : ℚ) - 1)

/-- `math.ceil(a / b)` for natural `a`, positive natural `b`. -/
def natCeilDiv (a b : ℕ) : ℕ := (a + b - 1) / b

/-- One iteration of the crossfade loop of `_loop_to_duration`
(lines 350–354): at `idx = k * seg_len`, when `idx ≥ xf` and
`idx + xf ≤ len(out)`, multiply `out[idx-xf : idx]` by the descending ramp
and `out[idx : idx+xf]` by the ascending ramp, in place. -/
def applyBoundaryRamps (seg_len : ℕ) (out : List ℚ) (k : ℕ) : List ℚ :=
  let idx := k * seg_len
  if XFADE_SAMP ≤ idx ∧ idx + XFADE_SAMP ≤ out.length then
    out.mapIdx (fun i x =>
      if idx - XFADE_SAMP ≤ i ∧ i < idx then x * rampOut (i - (idx - XFADE_SAMP))
      else if idx ≤ i ∧ i < idx + XFADE_SAMP then x * rampIn (i - idx)
      else x)
  else out

/-- `_loop_to_duration(stem, bar_samp, target_samp)` (`loop_mix.py`
lines 326–356), one channel: snap the segment length down to
`max(1, len // bar_samp)` bars, truncate, tile `ceil(target/seg_len) + 1`
times, cut at `target_samp + 512`, run the boundary-ramp loop for
`k = 1 .. n_reps - 1`, and return the first `target_samp` samples. -/
def loop_to_duration (stem : List ℚ) (bar_samp target_samp : ℕ) : List ℚ :=
  let bars := max 1 (stem.length / bar_samp)
  let seg_len := bars * bar_samp
  let seg := stem.take seg_len
  let n_reps := natCeilDiv target_samp seg_len + 1
  let out0 := ((List.replicate n_reps seg).flatten).take (target_samp + XFADE_SAMP)
  let out := (List.range' 1 (n_reps - 1)).foldl (applyBoundaryRamps seg_len) out0
  out.take target_samp

theorem length_applyBoundaryRamps (seg_len : ℕ) (out : List ℚ) (k : ℕ) :
    (applyBoundaryRamps seg_len out k).length = out.length := by
  unfold applyBoundaryRamps
  dsimp only
  split_ifs <;> simp [List.length_mapIdx]

theorem length_foldl_applyBoundaryRamps (seg_len : ℕ) (ks : List ℕ) (out : List ℚ) :
    (ks.foldl (applyBoundaryRamps seg_len) out).length = out.length := by
  induction ks generalizing out with
  | nil => rfl
  | cons k ks ih => rw [List.foldl_cons, ih, length_applyBoundaryRamps]

theorem le_natCeilDiv_mul (a b : ℕ) (hb : 1 ≤ b) : a ≤ natCeilDiv a b * b := by
  unfold natCeilDiv
  rcases Nat.eq_zero_or_pos a with rfl | ha
  · exact Nat.zero_le _
  have h1 := Nat.div_add_mod (a + b - 1) b
  have h2 : (a + b - 1) % b < b := Nat.mod_lt _ (by omega)
  rw [Nat.mul_comm]
  generalize hq : b * ((a + b - 1) / b) = t at h1 ⊢
  omega

theorem applyBoundaryRamps_pos (seg_len : ℕ) (out : List ℚ) (k : ℕ)
    (h1 : XFADE_SAMP ≤ k * seg_len) (h2 : k * seg_len + XFADE_SAMP ≤ out.length) :
    applyBoundaryRamps seg_len out k = out.mapIdx (fun i x =>
      if k * seg_len - XFADE_SAMP ≤ i ∧ i < k * seg_len then
        x * rampOut (i - (k * seg_len - XFADE_SAMP))
      else if k * seg_len ≤ i ∧ i < k * seg_len + XFADE_SAMP then x * rampIn (i - k * seg_len)
      else x) := by
  unfold applyBoundaryRamps
  dsimp only
  rw [if_pos (And.intro h1 h2)]

theorem applyBoundaryRamps_neg (seg_len : ℕ) (out : List ℚ) (k : ℕ)
    (h : ¬(XFADE_SAMP ≤ k * seg_len ∧ k * seg_len + XFADE_SAMP ≤ out.length)) :
    applyBoundaryRamps seg_len out k = out := by
  unfold applyBoundaryRamps
  dsimp only
  rw [if_neg h]

set_option maxRecDepth 8192 in
/-- Evaluation of the tiler on a one-bar all-ones segment (bar = 512 samples,
target 600): the output is the ramp profile itself — rep 1 (samples 0–511)
multiplied in place by the descending ramp, rep 2 (samples 512–599) by the
ascending ramp; nothing is summed. -/
theorem loop_to_duration_ones_eval :
    loop_to_duration (List.replicate 512 (1:ℚ)) 512 600 =
      (List.range 600).map (fun j => if j < 512 then rampOut j else rampIn (j - 512)) := by
  unfold loop_to_duration
  dsimp only
  have e1 : (1 ⊔ (List.replicate 512 (1:ℚ)).length / 512) * 512 = 512 := by
    norm_num [List.length_replicate]
  rw [e1]
  have e2 : natCeilDiv 600 512 = 2 := by norm_num [natCeilDiv]
  rw [e2]
  have e3 : List.take 512 (List.replicate 512 (1:ℚ)) = List.replicate 512 1 := by
    rw [List.take_replicate]
    norm_num
  rw [e3]
  have e4 : (List.replicate (2 + 1) (List.replicate 512 (1:ℚ))).flatten = List.replicate 1536 1 := by
    rw [List.flatten_replicate_replicate]
  rw [e4]
  have e5 : List.take (600 + XFADE_SAMP) (List.replicate 1536 (1:ℚ)) = List.replicate 1112 1 := by
    simp [XFADE_SAMP]
  rw [e5]
  have e6 : List.range' 1 (2 + 1 - 1) = [1, 2] := rfl
  rw [e6, List.foldl_cons, List.foldl_cons, List.foldl_nil]
  rw [applyBoundaryRamps_pos 512 (List.replicate 1112 (1:ℚ)) 1
        (by norm_num [XFADE_SAMP]) (by norm_num [XFADE_SAMP, List.length_replicate])]
  rw [applyBoundaryRamps_neg 512 _ 2
        (by norm_num [XFADE_SAMP, List.length_mapIdx, List.length_replicate])]
  apply List.ext_getElem?
  intro i
  by_cases hi : i < 600
  · rw [List.getElem?_take, if_pos hi, List.getElem?_mapIdx, List.getElem?_map,
        List.getElem?_range hi]
    have h1112 : i < 1112 := by omega
    rw [List.getElem?_replicate_of_lt h1112]
    simp only [XFADE_SAMP, Option.map_some']
    congr 1
    split_ifs <;> first | omega | norm_num
  · rw [List.getElem?_take, if_neg hi, List.getElem?_map]
    have hnone : (List.range 600)[i]? = none := by
      rw [List.getElem?_eq_none]
      simpa using Nat.le_of_not_lt hi
    rw [hnone]
    rfl

/-- Claim C6 counterexample: the claim's unity-gain overlap-add (descending
ramp on the tail of rep k summed with the complementary ascending ramp on the
head of rep k+1, so `rampOut j · x + rampIn j · y`) would leave an all-ones
segment at value 1 across every boundary; the code instead yields 0 at the
first sample of repetition 2 (index 512), because the two ramped ranges are
disjoint and nothing is summed. -/
theorem loop_boundary_gain_dips_to_zero :
    (loop_to_duration (List.replicate 512 (1:ℚ)) 512 600)[512]? = some 0 ∧
    rampOut 0 * 1 + rampIn 0 * 1 = 1 := by
  constructor
  · rw [loop_to_duration_ones_eval, List.getElem?_map,
        List.getElem?_range (by norm_num : (512 : ℕ) < 600)]
    norm_num [rampIn, XFADE_SAMP]
  · norm_num [rampOut, rampIn, XFADE_SAMP]

/-- Claim C6 as amended: at each internal tile boundary the code multiplies
the last 512 samples of repetition k by the descending ramp and the first 512
samples of repetition k+1 by the ascending ramp, in place on disjoint sample
ranges, with no overlap-add: on an all-ones one-bar segment the tiled output
is exactly the ramp profile, so each boundary sample holds audio from a
single repetition and the gain dips to 0 at the boundary instead of staying
at unity. -/
theorem loop_boundary_ramps_disjoint_in_place :
    loop_to_duration (List.replicate 512 (1:ℚ)) 512 600 =
      (List.range 600).map (fun j => if j < 512 then rampOut j else rampIn (j - 512)) :=
  loop_to_duration_ones_eval

theorem loop_to_duration_length (stem : List ℚ) (bar_samp target_samp : ℕ)
    (hb : 1 ≤ bar_samp) (hlen : bar_samp ≤ stem.length) :
    (loop_to_duration stem bar_samp target_samp).length = target_samp := by
  have hb0 : 0 < bar_samp := hb
  have hdiv : 1 ≤ stem.length / bar_samp := (Nat.one_le_div_iff hb0).mpr hlen
  unfold loop_to_duration
  dsimp only
  rw [max_eq_right hdiv]
  have hseglen_le : stem.length / bar_samp * bar_samp ≤ stem.length := Nat.div_mul_le_self _ _
  have hseglen_pos : 1 ≤ stem.length / bar_samp * bar_samp := Nat.mul_pos hdiv hb0
  rw [List.length_take, length_foldl_applyBoundaryRamps, List.length_take, List.length_flatten,
      List.map_replicate, List.length_take, List.sum_const_nat, Nat.min_eq_left hseglen_le]
  have hkey : target_samp ≤
      natCeilDiv target_samp (stem.length / bar_samp * bar_samp) *
        (stem.length / bar_samp * bar_samp) :=
    le_natCeilDiv_mul _ _ hseglen_pos
  have h2 : target_samp ≤
      (natCeilDiv target_samp (stem.length / bar_samp * bar_samp) + 1) *
        (stem.length / bar_samp * bar_samp) := by
    refine le_trans hkey ?_
    rw [add_mul, one_mul]
    exact Nat.le_add_right _ _
  rw [min_eq_left (le_min (Nat.le_add_right _ _) h2)]

/-- Claim C10: when the input segment holds at least one full bar
(`bar_samp ≤ len(stem)`, `bar_samp ≥ 1`), the tiler returns exactly
`target_samp` samples; when the segment is shorter than one bar the bar-snap
`bars = max(1, len // bar_samp)` assumes `bar_samp` samples that are not
there, and the returned buffer can be shorter — e.g. a 2-sample segment with
`bar_samp = 4` tiled to a 20-sample target returns only 12 samples. -/
theorem loop_tiler_length_dichotomy :
    (∀ (stem : List ℚ) (bar_samp target_samp : ℕ),
        1 ≤ bar_samp → bar_samp ≤ stem.length →
        (loop_to_duration stem bar_samp target_samp).length = target_samp) ∧
    (loop_to_duration [(1 : ℚ), 2] 4 20).length = 12 :=
  ⟨fun stem bar_samp target_samp hb hlen =>
      loop_to_duration_length stem bar_samp target_samp hb hlen,
    by decide⟩

/-- Witness for `loop_tiler_length_dichotomy`: a 4-sample segment with a
2-sample bar tiled to 9 samples returns exactly 9 samples. -/
theorem loop_tiler_length_dichotomy_witness :
    (loop_to_duration (List.replicate 4 (1 : ℚ)) 2 9).length = 9 :=
  loop_tiler_length_dichotomy.1 (List.replicate 4 (1 : ℚ)) 2 9 (by norm_num)
    (by norm_num [List.length_replicate])

-- ---------------------------------------------------------------------------
-- Phrase geometry and sample conversion
-- (`many_transitions.py` lines 159–165, 445–466, 519–527)
-- ---------------------------------------------------------------------------

/-- `bar_duration = 4 * (60 / bpm1)`, `phrase_duration = 8 * bar_duration`
(`many_transitions.py` lines 445–446). -/
def phrase_duration (bpm1 : ℚ) : ℚ := 8 * (4 * (60 / bpm1))

/-- `_snap_to_phrase` (lines 159–161): smallest phrase boundary
`≥ start_sec`. -/
def snap_to_phrase (start_sec phrase_sec : ℚ) : ℚ := ⌈start_sec / phrase_sec⌉ * phrase_sec

/-- `_sec_to_samp` (lines 164–165): `int(round(sec * sr))`. -/
def sec_to_samp (sec : ℚ) (sr : ℕ) : ℤ := pyround (sec * sr)

/-- `n_chorus_phrases = int(chorus_duration / phrase_duration)` (line 450). -/
def n_chorus_phrases (c1_start c1_end bpm1 : ℚ) : ℤ :=
  pyint ((c1_end - c1_start) / phrase_duration bpm1)

/-- `transition_start_sec` on the tight path (lines 448–458): the
second-to-last phrase of Chorus 1 when it holds at least two phrases,
otherwise (fallback) the chorus end. -/
def transition_start_sec_tight (c1_start c1_end bpm1 : ℚ) : ℚ :=
  if 2 ≤ n_chorus_phrases c1_start c1_end bpm1 then
    c1_start + (n_chorus_phrases c1_start c1_end bpm1 - 2) * phrase_duration bpm1
  else c1_end

/-- `transition_start_sec` on the loose path (line 462): Verse 2 start
snapped up to a phrase boundary. -/
def transition_start_sec_loose (v2_start bpm1 : ℚ) : ℚ :=
  snap_to_phrase v2_start (phrase_duration bpm1)

/-- Claim C7 counterexample: at `bpm1 = 127`, `sr = 44100`, Chorus 1 =
`(0 s, 61 s)` (4 phrases), the code rounds in the seconds domain:
`round((0 + 2·phrase_dur)·sr) = 1333417`, whereas the claimed anchor-plus-
multiple value `round(0·sr) + 2·round(phrase_dur·sr) = 2·666709 = 1333418`.
Phase A does not start at the anchor plus an exact multiple of
`phrase_samp`. -/
theorem tight_phase_a_start_not_exact_multiple :
    n_chorus_phrases 0 61 127 = 4 ∧
    sec_to_samp (transition_start_sec_tight 0 61 127) 44100 = 1333417 ∧
    sec_to_samp 0 44100 +
      (n_chorus_phrases 0 61 127 - 2) * sec_to_samp (phrase_duration 127) 44100 = 1333418 ∧
    sec_to_samp (transition_start_sec_tight 0 61 127) 44100 ≠
      sec_to_samp 0 44100 +
        (n_chorus_phrases 0 61 127 - 2) * sec_to_samp (phrase_duration 127) 44100 := by
  have hn : n_chorus_phrases 0 61 127 = 4 := by
    norm_num [n_chorus_phrases, pyint, phrase_duration]
  have h1 : sec_to_samp (transition_start_sec_tight 0 61 127) 44100 = 1333417 := by
    norm_num [transition_start_sec_tight, hn, sec_to_samp, pyround, phrase_duration, Int.fract]
  have h2 : sec_to_samp 0 44100 +
      (n_chorus_phrases 0 61 127 - 2) * sec_to_samp (phrase_duration 127) 44100 = 1333418 := by
    norm_num [hn, sec_to_samp, pyround, phrase_duration, Int.fract]
  refine ⟨hn, h1, h2, ?_⟩
  rw [h1, h2]
  norm_num

/-- Claim C7 as amended: the Phase A start sample is
`round(trans_start_sec · sr)` computed in seconds; it equals the anchor
sample plus an exact multiple of `phrase_samp` whenever `phrase_dur · sr` is
an integer `P` (then `phrase_samp = P`) and the anchor's fractional sample
part is not exactly 1/2 — tight: `s1_c1_start + (n_chorus_phrases − 2)·P`;
loose: `⌈v2_start / phrase_dur⌉ · P`, a multiple of `phrase_samp` from 0.
When `phrase_dur · sr` is fractional the seconds-domain rounding can drift
from the claimed value (see the counterexample). -/
theorem phase_a_start_exact_on_integral_phrase_samples
    (c1_start c1_end bpm : ℚ) (sr : ℕ) (P : ℤ) (v2_start : ℚ)
    (hP : (P : ℚ) = phrase_duration bpm * sr)
    (hn : 2 ≤ n_chorus_phrases c1_start c1_end bpm)
    (htie : Int.fract (c1_start * sr) ≠ 1/2) :
    sec_to_samp (transition_start_sec_tight c1_start c1_end bpm) sr =
      sec_to_samp c1_start sr +
        (n_chorus_phrases c1_start c1_end bpm - 2) * sec_to_samp (phrase_duration bpm) sr ∧
    sec_to_samp (transition_start_sec_loose v2_start bpm) sr =
      ⌈v2_start / phrase_duration bpm⌉ * sec_to_samp (phrase_duration bpm) sr := by
  have hPs : sec_to_samp (phrase_duration bpm) sr = P := by
    rw [sec_to_samp, ← hP, pyround_intCast]
  constructor
  · rw [transition_start_sec_tight, if_pos hn, hPs]
    have harg : (c1_start + (n_chorus_phrases c1_start c1_end bpm - 2) * phrase_duration bpm) * sr
        = c1_start * sr + ((n_chorus_phrases c1_start c1_end bpm - 2) * P : ℤ) := by
      push_cast
      rw [hP]
      ring
    rw [sec_to_samp, harg, pyround_add_int _ _ htie]
    rfl
  · rw [transition_start_sec_loose, snap_to_phrase, hPs]
    have harg : (⌈v2_start / phrase_duration bpm⌉ : ℚ) * phrase_duration bpm * sr
        = ((⌈v2_start / phrase_duration bpm⌉ * P : ℤ) : ℚ) := by
      push_cast
      rw [hP]
      ring
    rw [sec_to_samp, harg, pyround_intCast]

/-- Witness for `phase_a_start_exact_on_integral_phrase_samples` at
`bpm = 128`, `sr = 44100` (so `phrase_dur · sr = 15 · 44100 = 661500`, an
integer), Chorus 1 = `(1 s, 47 s)` (3 phrases), Verse 2 start 20 s. -/
theorem phase_a_start_exact_on_integral_phrase_samples_witness :
    sec_to_samp (transition_start_sec_tight 1 47 128) 44100 =
      sec_to_samp 1 44100 +
        (n_chorus_phrases 1 47 128 - 2) * sec_to_samp (phrase_duration 128) 44100 ∧
    sec_to_samp (transition_start_sec_loose 20 128) 44100 =
      ⌈(20 : ℚ) / phrase_duration 128⌉ * sec_to_samp (phrase_duration 128) 44100 :=
  phase_a_start_exact_on_integral_phrase_samples 1 47 128 44100 661500 20
    (by norm_num [phrase_duration])
    (by norm_num [n_chorus_phrases, pyint, phrase_duration])
    (by norm_num [Int.fract])

-- ---------------------------------------------------------------------------
-- Peak normalization (`many_transitions.py` 567–570, `loop_mix.py` 634–636)
-- ---------------------------------------------------------------------------

/-- `np.max(np.abs(mix))` over one channel of the assembled mix (0 for the
empty buffer, on which NumPy would raise instead). -/
def listPeak (l : List ℚ) : ℚ := l.foldr (fun x m => max |x| m) 0

/-- The final normalization step both builders run just before writing:
`peak = max |mix|; if peak > 0: mix = mix * (0.9 / peak)`. -/
def peak_normalize (mix : List ℚ) : List ℚ :=
  if 0 < listPeak mix then mix.map (fun x => x * (9/10 / listPeak mix)) else mix

theorem listPeak_nonneg (l : List ℚ) : 0 ≤ listPeak l := by
  induction l with
  | nil => exact le_refl 0
  | cons x xs ih => exact le_trans ih (le_max_right _ _)

theorem listPeak_map_mul (l : List ℚ) (c : ℚ) (hc : 0 ≤ c) :
    listPeak (l.map (fun x => x * c)) = listPeak l * c := by
  induction l with
  | nil =>
    simp [listPeak]
  | cons x xs ih =>
    show max |x * c| (listPeak (xs.map (fun x => x * c))) = max |x| (listPeak xs) * c
    rw [ih, abs_mul, abs_of_nonneg hc, max_mul_of_nonneg _ _ hc]

/-- Claim C9: the single peak-normalization pass before writing makes the
output's maximum absolute sample exactly 9/10 whenever the pre-normalization
peak is positive, and leaves the buffer untouched (bit-for-bit) when the
peak is 0. -/
theorem peak_normalize_sets_peak_or_preserves_zero (mix : List ℚ) :
    (0 < listPeak mix → listPeak (peak_normalize mix) = 9/10) ∧
    (listPeak mix = 0 → peak_normalize mix = mix) := by
  constructor
  · intro hpos
    unfold peak_normalize
    rw [if_pos hpos, listPeak_map_mul _ _ (le_of_lt (by positivity)), mul_comm,
        div_mul_cancel₀ _ (ne_of_gt hpos)]
  · intro hzero
    unfold peak_normalize
    rw [if_neg (by rw [hzero]; exact lt_irrefl 0)]

/-- Witness for `peak_normalize_sets_peak_or_preserves_zero` on the buffer
`[1, -2]` (peak 2). -/
theorem peak_normalize_sets_peak_or_preserves_zero_witness :
    listPeak (peak_normalize [(1 : ℚ), -2]) = 9/10 :=
  (peak_normalize_sets_peak_or_preserves_zero [(1 : ℚ), -2]).1 (by norm_num [listPeak])

end DJMix
